import Mathlib

/-!
Verification of the study-log analytics rules of `src/Tracker.py`
("CA Titan Platinum" study tracker).

Modelling conventions (shallow embedding of the Python source):
* Calendar dates (the `Date` column, stored as `"%Y-%m-%d"` strings in the
  source) are modelled as day numbers `ℤ`; string equality / lexicographic
  `min` on that format coincide with `ℤ` equality / `min` on day numbers.
* Timestamps (`Start_Time` / `End_Time`, pandas datetimes) are modelled as
  integer seconds `ℤ`; `(a - b).total_seconds() / 60` becomes
  `((a - b : ℤ) : ℚ) / 60`.
* A pandas DataFrame is an ordered list of row structures; `pd.concat`
  with `ignore_index=True` is list append; a boolean-mask filter is
  `List.filter`; `dropna(subset=[c])` keeps rows whose optional column `c`
  is `some _`.
* Python's `round(x, 2)` is `round2` below.  With integer-second
  timestamps `gap * 100 = 5 * seconds / 3` is never half an integer, so
  Python's round-half-to-even and Mathlib's `round` (half up) agree on
  every input that can occur.
-/

/-- One row of the `Logs` sheet (columns of `init_db` in the source). -/
structure LogRow where
  Date : ℤ
  Start_Time : ℤ
  End_Time : ℤ
  Category : String
  Subject : String
  Topic : String
  Duration_Mins : ℚ
  Focus : ℤ
  Note : String
  deriving DecidableEq, Repr

/-- One row of the `Master` syllabus sheet.  `Last_Studied` is optional:
`none` models a missing (`NaN`) cell, which `dropna` removes. -/
structure TopicRow where
  Subject : String
  Chapter : String
  Topic : String
  Est_Hours : ℚ
  Status : String
  Confidence : String
  Rev_Count : ℕ
  Last_Studied : Option ℤ
  RTP_Done : String
  MTP_Done : String
  deriving DecidableEq, Repr

/-- Python's `round(x, 2)`: round to two decimal places. -/
def round2 (q : ℚ) : ℚ := (round (q * 100) : ℚ) / 100

/-- `logs_df[logs_df['Date'] == today_str]`: the rows of today. -/
def todayLogs (logs : List LogRow) (today : ℤ) : List LogRow :=
  logs.filter (fun r => decide (r.Date = today))

/-- The `End_Time` of `today_logs.sort_values('End_Time').iloc[-1]`, i.e.
the maximum `End_Time` of the given rows (`none` when there are none).
Whatever tie-breaking `sort_values` uses, the last row after sorting by
`End_Time` attains the maximum `End_Time`, and only that value is read. -/
def lastEndTime (rows : List LogRow) : Option ℤ :=
  rows.foldl
    (fun a r => match a with
      | none => some r.End_Time
      | some m => some (max m r.End_Time))
    none

/-- `check_strict_gaps(logs_df, current_start_time)` from the source:
detects a wasted-time gap of more than 10 minutes between the end of the
last session of today and the start time of the new session, and if so
appends a synthesized `WASTED` row and returns the gap in minutes;
otherwise returns the log unchanged and `0`. -/
def check_strict_gaps (logs : List LogRow) (today : ℤ) (current_start_time : ℤ) :
    List LogRow × ℚ :=
  if logs = [] then (logs, 0)
  else
    match lastEndTime (todayLogs logs today) with
    | none => (logs, 0)
    | some last_end =>
      if 10 < ((current_start_time - last_end : ℤ) : ℚ) / 60 then
        (logs ++ [⟨today, last_end, current_start_time, "WASTED", "-",
                   "UNACCOUNTED GAP",
                   round2 (((current_start_time - last_end : ℤ) : ℚ) / 60), 0,
                   "Strict Mode Auto-Detect"⟩],
         ((current_start_time - last_end : ℤ) : ℚ) / 60)
      else (logs, 0)

example :
    check_strict_gaps [⟨0, 28800, 32400, "Study (Core)", "-", "X", 60, 3, ""⟩] 0 33900
      = ([⟨0, 28800, 32400, "Study (Core)", "-", "X", 60, 3, ""⟩,
          ⟨0, 32400, 33900, "WASTED", "-", "UNACCOUNTED GAP", 25, 0,
           "Strict Mode Auto-Detect"⟩], 25) := by
  norm_num [check_strict_gaps, todayLogs, lastEndTime, round2]

lemma lastEndTime_nil_of_nil {logs : List LogRow} {today : ℤ}
    (h : logs = []) : lastEndTime (todayLogs logs today) = none := by
  subst h; rfl

/-- C1 (amended: the synthesized record's `Category` is the upper-case
string `"WASTED"`, as the source writes it, not `"Wasted"`): whenever
today's partition of the log is non-empty with last session end
`last_end`, and the gap in minutes from `last_end` to the new start time
exceeds the 10-minute tolerance, `check_strict_gaps` returns the log
extended with exactly one synthesized record — category `"WASTED"`,
start `last_end`, end the new start time, duration the gap in minutes
rounded to two decimals, focus `0` — together with the positive gap
value. -/
theorem check_strict_gaps_gap_detected (logs : List LogRow)
    (today current_start_time last_end : ℤ)
    (hlast : lastEndTime (todayLogs logs today) = some last_end)
    (hgap : 10 < ((current_start_time - last_end : ℤ) : ℚ) / 60) :
    check_strict_gaps logs today current_start_time
      = (logs ++ [⟨today, last_end, current_start_time, "WASTED", "-",
                   "UNACCOUNTED GAP",
                   round2 (((current_start_time - last_end : ℤ) : ℚ) / 60), 0,
                   "Strict Mode Auto-Detect"⟩],
         ((current_start_time - last_end : ℤ) : ℚ) / 60)
      ∧ 0 < ((current_start_time - last_end : ℤ) : ℚ) / 60 := by
  have hne : logs ≠ [] := by
    intro h
    rw [lastEndTime_nil_of_nil h] at hlast
    exact Option.noConfusion hlast
  refine ⟨?_, lt_trans (by norm_num) hgap⟩
  unfold check_strict_gaps
  rw [if_neg hne, hlast]
  exact if_pos hgap

/-- Witness for `check_strict_gaps_gap_detected`: three sessions ending at
09:00 (32400 s), new start 09:25 (33900 s), tolerance 10 min: a 25-minute
`WASTED` record is appended. -/
theorem check_strict_gaps_gap_detected_witness :
    check_strict_gaps [⟨0, 28800, 32400, "Study (Core)", "-", "X", 60, 3, ""⟩] 0 33900
      = ([⟨0, 28800, 32400, "Study (Core)", "-", "X", 60, 3, ""⟩]
          ++ [⟨0, 32400, 33900, "WASTED", "-", "UNACCOUNTED GAP",
               round2 (((33900 - 32400 : ℤ) : ℚ) / 60), 0,
               "Strict Mode Auto-Detect"⟩],
         ((33900 - 32400 : ℤ) : ℚ) / 60)
      ∧ 0 < ((33900 - 32400 : ℤ) : ℚ) / 60 :=
  check_strict_gaps_gap_detected
    [⟨0, 28800, 32400, "Study (Core)", "-", "X", 60, 3, ""⟩] 0 33900 32400
    (by simp [todayLogs, lastEndTime]) (by norm_num)

/-- C1 (counterexample to the claim as stated): at a concrete input with a
25-minute gap, the synthesized record's category is the string `"WASTED"`,
which differs from the claimed string `"Wasted"`. -/
theorem check_strict_gaps_category_mismatch :
    ((check_strict_gaps [⟨0, 28800, 32400, "Study (Core)", "-", "X", 60, 3, ""⟩]
        0 33900).1.map LogRow.Category = ["Study (Core)", "WASTED"])
      ∧ ("WASTED" : String) ≠ "Wasted" := by
  constructor
  · norm_num [check_strict_gaps, todayLogs, lastEndTime, round2]
  · decide

/-- C5: whenever today's partition of the log is non-empty with last
session end `last_end`, and the gap in minutes from `last_end` to the new
start time is at most the 10-minute tolerance — including a gap of exactly
10 minutes and any negative gap — `check_strict_gaps` returns the log
unchanged with gap value 0: no record (in particular no negative-duration
record) is created. -/
theorem check_strict_gaps_within_tolerance (logs : List LogRow)
    (today current_start_time last_end : ℤ)
    (hlast : lastEndTime (todayLogs logs today) = some last_end)
    (hgap : ((current_start_time - last_end : ℤ) : ℚ) / 60 ≤ 10) :
    check_strict_gaps logs today current_start_time = (logs, 0) := by
  have hne : logs ≠ [] := by
    intro h
    rw [lastEndTime_nil_of_nil h] at hlast
    exact Option.noConfusion hlast
  unfold check_strict_gaps
  rw [if_neg hne, hlast]
  exact if_neg (not_lt.mpr hgap)

/-- Witness for `check_strict_gaps_within_tolerance`: session ends 09:00,
new start 09:05 — gap 5 ≤ 10, log returned unchanged. -/
theorem check_strict_gaps_within_tolerance_witness :
    check_strict_gaps [⟨0, 28800, 32400, "Study (Core)", "-", "X", 60, 3, ""⟩] 0 32700
      = ([⟨0, 28800, 32400, "Study (Core)", "-", "X", 60, 3, ""⟩], 0) :=
  check_strict_gaps_within_tolerance
    [⟨0, 28800, 32400, "Study (Core)", "-", "X", 60, 3, ""⟩] 0 32700 32400
    (by simp [todayLogs, lastEndTime]) (by norm_num)

/-- C6: if today's partition of the log is empty (which includes an
entirely empty log table), `check_strict_gaps` returns the log unchanged
with gap value 0, whatever the new start time. -/
theorem check_strict_gaps_no_sessions_today (logs : List LogRow)
    (today current_start_time : ℤ)
    (h : todayLogs logs today = []) :
    check_strict_gaps logs today current_start_time = (logs, 0) := by
  unfold check_strict_gaps
  by_cases hne : logs = []
  · rw [if_pos hne]
  · rw [if_neg hne, h]
    rfl

/-- Witness for `check_strict_gaps_no_sessions_today`: a log whose only
session is dated yesterday (day -1) is returned unchanged. -/
theorem check_strict_gaps_no_sessions_today_witness :
    check_strict_gaps [⟨-1, 28800, 32400, "Study (Core)", "-", "X", 60, 3, ""⟩] 0 33900
      = ([⟨-1, 28800, 32400, "Study (Core)", "-", "X", 60, 3, ""⟩], 0) :=
  check_strict_gaps_no_sessions_today
    [⟨-1, 28800, 32400, "Study (Core)", "-", "X", 60, 3, ""⟩] 0 33900
    (by simp [todayLogs])

/-- C10: `check_strict_gaps` is append-only — its returned table is either
exactly the input table or the input table with exactly one record
appended at the end; existing records are never altered, reordered or
deleted. -/
theorem check_strict_gaps_append_only (logs : List LogRow)
    (today current_start_time : ℤ) :
    (check_strict_gaps logs today current_start_time).1 = logs
      ∨ ∃ r, (check_strict_gaps logs today current_start_time).1 = logs ++ [r] := by
  unfold check_strict_gaps
  split
  · exact Or.inl rfl
  · split
    · exact Or.inl rfl
    · split
      · exact Or.inr ⟨_, rfl⟩
      · exact Or.inl rfl

/-- The due condition of `get_revision_alerts` (source line 182):
`(cnt == 0 and gap >= 1) or (cnt == 1 and gap >= 3) or
 (cnt == 2 and gap >= 7) or (cnt >= 3 and gap >= 15)`. -/
def dueCond (cnt : ℕ) (gap : ℤ) : Bool :=
  (cnt == 0 && decide (1 ≤ gap)) || (cnt == 1 && decide (3 ≤ gap))
    || (cnt == 2 && decide (7 ≤ gap)) || (decide (3 ≤ cnt) && decide (15 ≤ gap))

/-- The alert label `f"{row['Subject']} - {row['Topic']}"`. -/
def topicLabel (r : TopicRow) : String := r.Subject ++ " - " ++ r.Topic

/-- `get_revision_alerts(master_df)` from the source: drops rows with a
missing `Last_Studied`, and collects, in input order, the labels of the
rows whose revision gap meets the 1/3/7/15-day rule. -/
def get_revision_alerts (master : List TopicRow) (today : ℤ) : List String :=
  if master = [] then []
  else master.filterMap (fun r =>
    match r.Last_Studied with
    | none => none
    | some d => if dueCond r.Rev_Count (today - d) then some (topicLabel r) else none)

/-- The spec's fixed threshold table, keyed by `min(rev_count, 3)`. -/
def revThresholds : List ℤ := [1, 3, 7, 15]

lemma dueCond_iff_threshold (cnt : ℕ) (gap : ℤ) :
    dueCond cnt gap = true ↔ revThresholds.getD (min cnt 3) 0 ≤ gap := by
  match cnt with
  | 0 => simp [dueCond, revThresholds]
  | 1 => simp [dueCond, revThresholds]
  | 2 => simp [dueCond, revThresholds]
  | (n + 3) =>
    simp only [dueCond, revThresholds, Bool.or_eq_true, Bool.and_eq_true,
      beq_iff_eq, decide_eq_true_eq]
    constructor
    · rintro (((⟨h, _⟩ | ⟨h, _⟩) | ⟨h, _⟩) | ⟨_, h⟩) <;> first | omega | simpa using h
    · intro h
      exact Or.inr ⟨by omega, by simpa using h⟩

example : get_revision_alerts
    [⟨"AFM", "1", "Forex", 10, "Class Done", "Med", 0, some 3, "No", "No"⟩] 4
    = ["AFM - Forex"] := by decide
example : get_revision_alerts
    [⟨"AFM", "1", "Forex", 10, "Class Done", "Med", 1, some 3, "No", "No"⟩] 4
    = [] := by decide

/-- C2: a topic with a present `Last_Studied` date is marked due by
`get_revision_alerts` exactly when `gap_days = today - last_studied`
reaches the threshold of the fixed table `[1, 3, 7, 15]` keyed by
`min(rev_count, 3)`: `rev_count = 0` needs a gap of 1 day, `1` needs 3,
`2` needs 7, and every `rev_count ≥ 3` needs 15 (the 15-day cadence
forever). -/
theorem revision_due_iff_threshold (today d : ℤ) (r : TopicRow)
    (h : r.Last_Studied = some d) :
    get_revision_alerts [r] today = [topicLabel r]
      ↔ revThresholds.getD (min r.Rev_Count 3) 0 ≤ today - d := by
  rw [← dueCond_iff_threshold]
  unfold get_revision_alerts
  simp only [List.filterMap, h, if_neg (List.cons_ne_nil r [])]
  constructor
  · intro hdue
    by_contra hc
    rw [if_neg (by simpa using hc)] at hdue
    simp at hdue
  · intro hdue
    rw [if_pos hdue]

/-- Witness for `revision_due_iff_threshold`: a topic last studied 3 days
ago with one revision pass (threshold 3) is due. -/
theorem revision_due_iff_threshold_witness :
    get_revision_alerts
        [⟨"AFM", "1", "Forex", 10, "Rev 1", "Med", 1, some 0, "No", "No"⟩] 3
      = [topicLabel ⟨"AFM", "1", "Forex", 10, "Rev 1", "Med", 1, some 0, "No", "No"⟩]
      ∧ revThresholds.getD
          (min (⟨"AFM", "1", "Forex", 10, "Rev 1", "Med", 1, some 0, "No", "No"⟩ : TopicRow).Rev_Count 3) 0
          ≤ 3 - 0 :=
  ⟨(revision_due_iff_threshold 3 0
      ⟨"AFM", "1", "Forex", 10, "Rev 1", "Med", 1, some 0, "No", "No"⟩ rfl).mpr
      (by decide),
   by decide⟩

/-- C7: a topic whose `Last_Studied` is absent is skipped by
`get_revision_alerts` — it is never marked due, and the alerts computed
from the remaining rows are exactly those of the table without it, so a
missing field never aborts or perturbs the rest of the computation. -/
theorem revision_alerts_skip_missing_date (xs ys : List TopicRow)
    (r : TopicRow) (today : ℤ) (h : r.Last_Studied = none) :
    get_revision_alerts (xs ++ r :: ys) today = get_revision_alerts (xs ++ ys) today
      ∧ get_revision_alerts [r] today = [] := by
  constructor
  · unfold get_revision_alerts
    rw [if_neg (by simp)]
    by_cases hys : xs ++ ys = []
    · rw [if_pos hys]
      rcases List.append_eq_nil.mp hys with ⟨hx, hy⟩
      subst hx; subst hy
      simp [h]
    · rw [if_neg hys]
      simp [List.filterMap_append, h]
  · unfold get_revision_alerts
    rw [if_neg (List.cons_ne_nil r [])]
    simp [List.filterMap, h]

/-- Witness for `revision_alerts_skip_missing_date`: a never-studied topic
between two studied ones drops out; the due topic on either side is still
reported. -/
theorem revision_alerts_skip_missing_date_witness :
    get_revision_alerts
        [⟨"A", "1", "T1", 1, "Class Done", "Med", 0, some 0, "No", "No"⟩,
         ⟨"B", "2", "T2", 1, "Pending", "Low", 0, none, "No", "No"⟩,
         ⟨"C", "3", "T3", 1, "Rev 1", "High", 1, some 0, "No", "No"⟩] 5
      = get_revision_alerts
        [⟨"A", "1", "T1", 1, "Class Done", "Med", 0, some 0, "No", "No"⟩,
         ⟨"C", "3", "T3", 1, "Rev 1", "High", 1, some 0, "No", "No"⟩] 5
      ∧ get_revision_alerts
          [⟨"B", "2", "T2", 1, "Pending", "Low", 0, none, "No", "No"⟩] 5 = [] :=
  revision_alerts_skip_missing_date
    [⟨"A", "1", "T1", 1, "Class Done", "Med", 0, some 0, "No", "No"⟩]
    [⟨"C", "3", "T3", 1, "Rev 1", "High", 1, some 0, "No", "No"⟩]
    ⟨"B", "2", "T2", 1, "Pending", "Low", 0, none, "No", "No"⟩ 5 rfl

/-- C8: for a fixed revision count, the due condition of the scheduler is
monotonic in the gap: due at gap `d` implies due at every larger gap
`d'`. -/
theorem due_monotone_in_gap (cnt : ℕ) (d d' : ℤ) (hlt : d < d')
    (hdue : dueCond cnt d = true) : dueCond cnt d' = true := by
  rw [dueCond_iff_threshold] at hdue ⊢
  omega

/-- Witness for `due_monotone_in_gap`: an unrevised topic due at a 1-day
gap is still due at a 2-day gap. -/
theorem due_monotone_in_gap_witness : dueCond 0 2 = true :=
  due_monotone_in_gap 0 1 2 (by decide) (by decide)

/-- The statuses that `calculate_velocity` counts as done:
`master_df['Status'].isin(['Mastered', 'Rev 3', 'Rev 2', 'Rev 1', 'Class Done'])`. -/
def doneStatuses : List String := ["Mastered", "Rev 3", "Rev 2", "Rev 1", "Class Done"]

/-- `done_count` of `calculate_velocity`: the number of master rows whose
status is one of `doneStatuses`. -/
def doneCount (master : List TopicRow) : ℕ :=
  (master.filter (fun r => doneStatuses.contains r.Status)).length

/-- The four return paths of `calculate_velocity` in the source:
`"N/A"`, `"Calculating..."`, `"Stalled"`, and a projected finish date
(the source formats `datetime.now() + timedelta(days=days_needed)` with
`strftime`; `finish` carries that moment as a day count, the formatting
being presentation only). -/
inductive VelocityResult where
  | NA
  | calculating
  | stalled
  | finish (t : ℚ)
  deriving DecidableEq, Repr

/-- `calculate_velocity(master_df, logs_df)` from the source, at date
`today`.  `none` models the uncaught `ZeroDivisionError` the source
raises when `days_passed = (today - start_date).days + 1` is zero (the
earliest log dated tomorrow); every Python return is `some _`. -/
def calculate_velocity (master : List TopicRow) (logs : List LogRow)
    (today : ℤ) : Option VelocityResult :=
  if master = [] ∨ logs = [] then some .NA
  else if doneCount master = 0 then some .calculating
  else
    match (logs.map LogRow.Date).min? with
    | none => none
    | some start_date =>
      if today - start_date + 1 = 0 then none
      else if (doneCount master : ℚ) / ((today - start_date + 1 : ℤ) : ℚ) ≤ 0 then
        some .stalled
      else
        some (.finish ((today : ℚ)
          + ((master.length : ℚ) - (doneCount master : ℚ))
            / ((doneCount master : ℚ) / ((today - start_date + 1 : ℤ) : ℚ))))

/-- C3: whenever the syllabus table is empty (`total_topics = 0`), or no
topic is done, or there is no log history, `calculate_velocity` returns
one of its two no-data sentinels (`"N/A"` or `"Calculating..."`, the
spec's "insufficient data"): no finish date is projected and the
stalled path is not taken. -/
theorem velocity_insufficient_data (master : List TopicRow)
    (logs : List LogRow) (today : ℤ)
    (h : master.length = 0 ∨ doneCount master = 0 ∨ logs = []) :
    calculate_velocity master logs today = some VelocityResult.NA
      ∨ calculate_velocity master logs today = some VelocityResult.calculating := by
  unfold calculate_velocity
  rcases h with h | h | h
  · rw [if_pos (Or.inl (List.length_eq_zero.mp h))]
    exact Or.inl rfl
  · by_cases he : master = [] ∨ logs = []
    · rw [if_pos he]
      exact Or.inl rfl
    · rw [if_neg he, if_pos h]
      exact Or.inr rfl
  · rw [if_pos (Or.inr h)]
    exact Or.inl rfl

/-- Witness for `velocity_insufficient_data`: a syllabus with one pending
topic and no done topic yields `"Calculating..."`, projecting no date. -/
theorem velocity_insufficient_data_witness :
    calculate_velocity [⟨"A", "1", "T", 1, "Pending", "Low", 0, none, "No", "No"⟩]
        [⟨0, 0, 3600, "Study (Core)", "A", "T", 60, 3, ""⟩] 9
      = some VelocityResult.NA
      ∨ calculate_velocity [⟨"A", "1", "T", 1, "Pending", "Low", 0, none, "No", "No"⟩]
        [⟨0, 0, 3600, "Study (Core)", "A", "T", 60, 3, ""⟩] 9
      = some VelocityResult.calculating :=
  velocity_insufficient_data
    [⟨"A", "1", "T", 1, "Pending", "Low", 0, none, "No", "No"⟩]
    [⟨0, 0, 3600, "Study (Core)", "A", "T", 60, 3, ""⟩] 9
    (Or.inr (Or.inl (by decide)))

/-- C4: on a syllabus with at least one done topic and a non-empty log
history whose earliest log date `first` is not after today,
`calculate_velocity` computes `days_passed = today - first + 1` (both
endpoints inclusive) and `rate = done_topics / days_passed`, returns
`"Stalled"` if `rate ≤ 0`, and otherwise projects the finish moment
`today + (total_topics - done_topics) / rate`. -/
theorem velocity_projection (master : List TopicRow) (logs : List LogRow)
    (today first : ℤ)
    (hdone : 1 ≤ doneCount master)
    (hmin : (logs.map LogRow.Date).min? = some first)
    (hfirst : first ≤ today) :
    calculate_velocity master logs today
      = if (doneCount master : ℚ) / ((today - first + 1 : ℤ) : ℚ) ≤ 0 then
          some VelocityResult.stalled
        else
          some (.finish ((today : ℚ)
            + ((master.length : ℚ) - (doneCount master : ℚ))
              / ((doneCount master : ℚ) / ((today - first + 1 : ℤ) : ℚ)))) := by
  have hm : master ≠ [] := by
    intro h
    subst h
    simp [doneCount] at hdone
  have hl : logs ≠ [] := by
    intro h
    subst h
    simp at hmin
  unfold calculate_velocity
  rw [if_neg (by push_neg; exact ⟨hm, hl⟩), if_neg (by omega)]
  simp only [hmin]
  rw [if_neg (by omega)]

/-- Witness for `velocity_projection` (the spec's worked example): 10
topics, 5 done, earliest log 9 days ago — `days_passed = 10`,
`rate = 0.5`, projected finish `today + 10` (day 19 from day 9). -/
theorem velocity_projection_witness :
    calculate_velocity
        (List.replicate 5 (⟨"A", "1", "T", 1, "Class Done", "Med", 0, some 0, "No", "No"⟩ : TopicRow)
          ++ List.replicate 5 ⟨"A", "1", "T", 1, "Pending", "Low", 0, none, "No", "No"⟩)
        [⟨0, 0, 3600, "Study (Core)", "A", "T", 60, 3, ""⟩] 9
      = some (VelocityResult.finish 19) := by
  rw [velocity_projection
    (List.replicate 5 (⟨"A", "1", "T", 1, "Class Done", "Med", 0, some 0, "No", "No"⟩ : TopicRow)
      ++ List.replicate 5 (⟨"A", "1", "T", 1, "Pending", "Low", 0, none, "No", "No"⟩ : TopicRow))
    [⟨0, 0, 3600, "Study (Core)", "A", "T", 60, 3, ""⟩] 9 0
    (by decide) (by decide) (by decide)]
  have hdc : doneCount
      (List.replicate 5 (⟨"A", "1", "T", 1, "Class Done", "Med", 0, some 0, "No", "No"⟩ : TopicRow)
        ++ List.replicate 5 (⟨"A", "1", "T", 1, "Pending", "Low", 0, none, "No", "No"⟩ : TopicRow))
      = 5 := by decide
  have hlen : (List.replicate 5 (⟨"A", "1", "T", 1, "Class Done", "Med", 0, some 0, "No", "No"⟩ : TopicRow)
        ++ List.replicate 5 (⟨"A", "1", "T", 1, "Pending", "Low", 0, none, "No", "No"⟩ : TopicRow)).length
      = 10 := by decide
  rw [hdc, hlen]
  norm_num

/-- Modelled from the spec: the Streak Counter contract
`current_streak(session_dates, today)` of spec section 4.4 has no
implementation among the source files under `src/` (`Tracker.py`, the one
variant present, contains no streak function), so it is transcribed from
the spec's words.  `backStreak s d fuel` walks backward day-by-day from
`d`, counting consecutive dates present in `s` and stopping at the first
gap; the fuel `s.length` bounds the walk, and suffices because a
consecutive run of distinct dates inside `s` cannot be longer than
`s.length`. -/
def backStreak (s : List ℤ) (d : ℤ) : ℕ → ℕ
  | 0 => 0
  | fuel + 1 => if d ∈ s then 1 + backStreak s (d - 1) fuel else 0

/-- Modelled from the spec: `current_streak(session_dates, today)`
(spec section 4.4).  If `today` is present the streak starts at 1 and
extends backward from `today - 1`; else if `today - 1` is present the
backward count from `today - 1` stands alone (no +1 for today); else the
streak is 0. -/
def current_streak (s : List ℤ) (today : ℤ) : ℕ :=
  if today ∈ s then 1 + backStreak s (today - 1) s.length
  else if today - 1 ∈ s then backStreak s (today - 1) s.length
  else 0

example : current_streak [10, 9, 8] 10 = 3 := by decide
example : current_streak [8] 10 = 0 := by decide
example : current_streak [9, 8] 10 = 2 := by decide

/-- C9: `current_streak` returns 1 plus the backward count from
`today - 1` when today is present, the bare backward count when only
yesterday is present, and 0 otherwise; in particular it returns 3 on
`{today, today-1, today-2}`, 0 on `{today-2}` alone, and 2 on
`{today-1, today-2}`. -/
theorem current_streak_cases (s : List ℤ) (today : ℤ) :
    (today ∈ s → current_streak s today = 1 + backStreak s (today - 1) s.length)
      ∧ (today ∉ s → today - 1 ∈ s →
          current_streak s today = backStreak s (today - 1) s.length)
      ∧ (today ∉ s → today - 1 ∉ s → current_streak s today = 0)
      ∧ current_streak [today, today - 1, today - 2] today = 3
      ∧ current_streak [today - 2] today = 0
      ∧ current_streak [today - 1, today - 2] today = 2 := by
  refine ⟨fun h => by rw [current_streak, if_pos h],
          fun h h' => by rw [current_streak, if_neg h, if_pos h'],
          fun h h' => by rw [current_streak, if_neg h, if_neg h'],
          ?_, ?_, ?_⟩
  all_goals
    simp only [current_streak, backStreak, List.length_cons, List.length_nil,
      List.mem_cons, List.not_mem_nil, eq_self_iff_true, true_or, or_true,
      or_false, false_or, if_true, if_false]
    split_ifs <;> omega

/-- Witness for `current_streak_cases`: on `{0}` with today `0`, the
streak is `1 + backStreak [0] (-1) 1`; on `{5}` with today `0`, neither
today nor yesterday is present and the streak is 0. -/
theorem current_streak_cases_witness :
    current_streak [0] 0 = 1 + backStreak [0] (-1) 1
      ∧ current_streak [5] 0 = 0 :=
  ⟨(current_streak_cases [0] 0).1 (by decide),
   (current_streak_cases [5] 0).2.2.1 (by decide) (by decide)⟩
